import Mathlib

/-!
# Verification of the saleor payment gateway orchestrator

Shallow embedding of `src/saleor/payment/gateway.py`.

The orchestrator functions (`process_payment`, `authorize`, `capture`,
`refund`, `void`, `confirm`) are straight-line, effectful Python built from
four decorators (`raise_payment_error`, `require_active_payment`,
`with_locked_payment`, `payment_postprocess`) around an operation body.  We
embed them as pure functions on an explicit state `St` carrying the
authoritative payment row, the transaction ledger and an event trace (lock
acquisition, activity checks, gateway invocations, post-processing runs), and
model the raising of `PaymentError` with `Except String`.

Functions imported by `gateway.py` from modules that are not part of the
analysed source (`..utils`, the models, the plugin manager) are modelled from
the specification; each such definition carries a doc comment starting with
`Modelled from the spec:`.  Monetary amounts (`Decimal` in the source) are
embedded as `ℤ`.
-/

namespace Saleor

/-- Transaction kinds, as listed in the spec's data model (`TransactionKind`
in the source, imported from the payment package which is outside the
analysed source). -/
inductive TransactionKind where
  | AUTH
  | CAPTURE
  | VOID
  | REFUND
  | CONFIRM
  | EXTERNAL
  | ACTION_TO_CONFIRM
  | CANCEL
deriving DecidableEq, Repr

/-- Modelled from the spec: the display name of a transaction kind, used in
the `Cannot find successful {kind} transaction.` error message (the spec
writes the kinds as AUTH, CAPTURE, ...). -/
def kindStr : TransactionKind → String
  | .AUTH => "AUTH"
  | .CAPTURE => "CAPTURE"
  | .VOID => "VOID"
  | .REFUND => "REFUND"
  | .CONFIRM => "CONFIRM"
  | .EXTERNAL => "EXTERNAL"
  | .ACTION_TO_CONFIRM => "ACTION_TO_CONFIRM"
  | .CANCEL => "CANCEL"

/-- Modelled from the spec: a gateway response minimally carries a success
flag, a correlating token (`transaction_id`), an `action_required` flag and
optional payment-method metadata; `well_formed` records whether the raw
response has the shape `validate_gateway_response` accepts. -/
structure GatewayResponse where
  is_success : Bool
  action_required : Bool
  transaction_id : String
  payment_method_info : Option String
  well_formed : Bool
deriving DecidableEq, Repr

/-- Modelled from the spec: one call to a gateway adapter either returns a
`GatewayResponse`, raises a distinguished gateway error, or raises a
distinguished payment error. -/
inductive GatewayResult where
  | ok (r : GatewayResponse)
  | gatewayError
  | paymentError
deriving DecidableEq, Repr

/-- Modelled from the spec: the payload `create_payment_information` builds
for a gateway call; the parts the orchestrator logic depends on are the
correlating token and the amount. -/
structure PaymentData where
  token : String
  amount : Option ℤ
deriving DecidableEq, Repr

/-- A ledger entry (`Transaction` model; the model class itself is outside
the analysed source, its fields are given by the spec's data model). -/
structure Transaction where
  kind : TransactionKind
  token : String
  is_success : Bool
  action_required : Bool
  error : Option String
deriving DecidableEq, Repr

/-- A payment row (`Payment` model; the model class is outside the analysed
source, its fields and predicate methods are given by the spec's data
model). -/
structure Payment where
  id : Nat
  gateway : String
  is_active : Bool
  captured_amount : ℤ
  total : ℤ
  manual : Bool
  can_refund_flag : Bool
  can_void_flag : Bool
  can_authorize_flag : Bool
  payment_method_details : Option String
deriving DecidableEq, Repr

/-- Modelled from the spec: `payment.is_manual()`. -/
def Payment.is_manual (p : Payment) : Bool := p.manual

/-- Modelled from the spec: `payment.can_refund()`. -/
def Payment.can_refund (p : Payment) : Bool := p.can_refund_flag

/-- Modelled from the spec: `payment.can_void()`. -/
def Payment.can_void (p : Payment) : Bool := p.can_void_flag

/-- Modelled from the spec: `payment.get_charge_amount()`, the remaining
charge amount (total charge amount minus the captured amount). -/
def Payment.get_charge_amount (p : Payment) : ℤ := p.total - p.captured_amount

/-- Observable events of one orchestrator run, used to state ordering
properties (which check ran before which resource was taken). -/
inductive Ev where
  | activeCheck (is_active : Bool)
  | lockAcquire
  | gatewayCall (pd : PaymentData)
  | postprocessRun
deriving DecidableEq, Repr

/-- The mutable world an orchestrator call runs against: the authoritative
payment row in the store, this payment's ledger in creation order, the
number of `gateway_postprocess` invocations so far, and the event trace. -/
structure St where
  payment : Payment
  transactions : List Transaction
  postprocess_count : Nat
  events : List Ev
deriving DecidableEq, Repr

def ERROR_MSG : String := "Oops! Something went wrong."

def GENERIC_TRANSACTION_ERROR : String := "Transaction was unsuccessful."

abbrev Res (α : Type) := Except String α

deriving instance DecidableEq for Except

/-- Modelled from the spec: `validate_gateway_response` accepts exactly the
well-formed responses (raises `GatewayError` on a malformed shape). -/
def validate_gateway_response (r : GatewayResponse) : Bool := r.well_formed

/-- Modelled from the spec: the post-processing hook run against a committed
transaction and its payment.  Its internal effect on the payment aggregate is
outside the analysed source; the embedding records its invocation in the
counter and the trace. -/
def gateway_postprocess (_txn : Transaction) (st : St) : St :=
  { st with
    postprocess_count := st.postprocess_count + 1
    events := st.events ++ [Ev.postprocessRun] }

/-- Modelled from the spec: `update_payment_method_details` stores the
response's payment-method metadata on the payment before the ledger
commit. -/
def update_payment_method_details (r : GatewayResponse) (st : St) : St :=
  { st with
    payment := { st.payment with payment_method_details := r.payment_method_info } }

/-- Modelled from the spec: `create_payment_information` builds the gateway
payload carrying the payment token and the amount. -/
def create_payment_information (token : String) (amount : Option ℤ) : PaymentData :=
  { token := token, amount := amount }

/-- Modelled from the spec: `create_transaction` appends a new ledger row;
its token is the request payload's, and on the manual/synthetic paths the
caller passes the success flag explicitly (no gateway response). -/
def create_transaction (st : St) (kind : TransactionKind)
    (payment_information : PaymentData) (is_success : Bool) : Transaction × St :=
  let txn : Transaction :=
    { kind := kind
      token := payment_information.token
      is_success := is_success
      action_required := false
      error := none }
  (txn, { st with transactions := st.transactions ++ [txn] })

/-- The token under which a commit is recorded: the response's correlating
identifier, or the request payload's token when there is no response. -/
def target_token (payment_information : PaymentData)
    (gateway_response : Option GatewayResponse) : String :=
  match gateway_response with
  | some r => r.transaction_id
  | none => payment_information.token

/-- Modelled from the spec: the idempotent commit step.  If a transaction
with the same kind and the same correlating token already exists and is
marked successful, return it unchanged (no duplicate write); otherwise append
a new transaction with `is_success = (error is none and the response
indicates success)`, `action_required` copied from the response when present,
and the token as in `target_token`. -/
def get_already_processed_transaction_or_create_new_transaction
    (st : St) (kind : TransactionKind) (action_required : Bool)
    (payment_information : PaymentData) (error_msg : Option String)
    (gateway_response : Option GatewayResponse) : Transaction × St :=
  match (st.transactions.filter
      (fun t => t.kind == kind &&
        t.token == target_token payment_information gateway_response &&
        t.is_success)).getLast? with
  | some t => (t, st)
  | none =>
    let txn : Transaction :=
      { kind := kind
        token := target_token payment_information gateway_response
        is_success := error_msg.isNone &&
          (match gateway_response with
           | some r => r.is_success
           | none => false)
        action_required :=
          (match gateway_response with
           | some r => r.action_required
           | none => action_required)
        error := error_msg }
    (txn, { st with transactions := st.transactions ++ [txn] })

/-- Modelled from the spec: `clean_capture` — the capture precondition that
the amount is positive and does not exceed the un-captured charge amount. -/
def clean_capture (p : Payment) (amount : ℤ) : Res Unit :=
  if amount ≤ 0 then Except.error "Amount should be a positive number."
  else if amount > p.total - p.captured_amount then
    Except.error "Unable to charge more than un-captured amount."
  else Except.ok ()

/-- Modelled from the spec: `clean_authorize` — the gateway-specific check
that the payment can still be authorized. -/
def clean_authorize (p : Payment) : Res Unit :=
  if p.can_authorize_flag then Except.ok ()
  else Except.error "Charged transactions cannot be authorized again."

/-- The type of an orchestrator stage: it receives the payment object the
caller handed in (a possibly stale snapshot of the row) and the world, and
returns the transaction or the raised `PaymentError` message, together with
the updated world. -/
abbrev Op := Payment → St → Res Transaction × St

/-- The message `raise_payment_error` raises for an unsuccessful transaction:
`result.error or GENERIC_TRANSACTION_ERROR`, where Python's `or` falls back
to the generic message when the stored error is absent or empty. -/
def txn_error_message (txn : Transaction) : String :=
  match txn.error with
  | some s => if s = "" then GENERIC_TRANSACTION_ERROR else s
  | none => GENERIC_TRANSACTION_ERROR

/-- Decorator `raise_payment_error` (gateway.py lines 33-40): if the wrapped
call returns a transaction that is not successful, raise `PaymentError` with
the transaction's error message or the generic one. -/
def raise_payment_error (fn : Op) : Op :=
  fun payment st =>
    match fn payment st with
    | (Except.ok result, st') =>
      if result.is_success then (Except.ok result, st')
      else (Except.error (txn_error_message result), st')
    | (Except.error e, st') => (Except.error e, st')

/-- Decorator `payment_postprocess` (gateway.py lines 43-49): run
`gateway_postprocess` on the returned transaction and its payment, then
return the transaction.  A raise from the wrapped call propagates without
running the hook. -/
def payment_postprocess (fn : Op) : Op :=
  fun payment st =>
    match fn payment st with
    | (Except.ok txn, st') => (Except.ok txn, gateway_postprocess txn st')
    | (Except.error e, st') => (Except.error e, st')

/-- Decorator `require_active_payment` (gateway.py lines 52-58): raise
`PaymentError` when the payment argument's `is_active` flag is false,
otherwise call the wrapped operation.  The trace records which `is_active`
value the check read. -/
def require_active_payment (fn : Op) : Op :=
  fun payment st =>
    let st' := { st with events := st.events ++ [Ev.activeCheck payment.is_active] }
    if payment.is_active then fn payment st'
    else (Except.error "This payment is no longer active.", st')

/-- Decorator `with_locked_payment` (gateway.py lines 61-69): inside a
database transaction, re-fetch the payment row with `select_for_update` and
call the wrapped operation on the reloaded row.  The embedding replaces the
caller's snapshot with the authoritative row `st.payment` and records the
lock acquisition in the trace. -/
def with_locked_payment (fn : Op) : Op :=
  fun _payment st =>
    let st' := { st with events := st.events ++ [Ev.lockAcquire] }
    fn st'.payment st'

/-- The decorator stack shared by `process_payment`, `authorize`, `refund`,
`void` and `confirm` (outermost first): `raise_payment_error`,
`require_active_payment`, `with_locked_payment`, `payment_postprocess`. -/
def orchestrate (body : Op) : Op :=
  raise_payment_error (require_active_payment (with_locked_payment
    (payment_postprocess body)))

/-- `_fetch_gateway_response` (gateway.py lines 265-278): call the gateway
function, validate the response; on `GatewayError` (including a malformed
response) or `PaymentError` return `(none, ERROR_MSG)`, on success return the
validated response and no error.  The trace records the gateway
invocation. -/
def _fetch_gateway_response (fn : PaymentData → GatewayResult)
    (pd : PaymentData) (st : St) :
    (Option GatewayResponse × Option String) × St :=
  let st' := { st with events := st.events ++ [Ev.gatewayCall pd] }
  match fn pd with
  | GatewayResult.ok r =>
    if validate_gateway_response r then ((some r, none), st')
    else ((none, some ERROR_MSG), st')
  | GatewayResult.gatewayError => ((none, some ERROR_MSG), st')
  | GatewayResult.paymentError => ((none, some ERROR_MSG), st')

/-- `_get_past_transaction_token` (gateway.py lines 281-287): the token of
the most recent successful transaction of the given kind, or a raised
`PaymentError` when none exists. -/
def _get_past_transaction_token (st : St) (kind : TransactionKind) : Res String :=
  match (st.transactions.filter (fun t => t.kind == kind && t.is_success)).getLast? with
  | none => Except.error ("Cannot find successful " ++ kindStr kind ++ " transaction.")
  | some t => Except.ok t.token

/-- `_validate_refund_amount` (gateway.py lines 290-294). -/
def _validate_refund_amount (payment : Payment) (amount : ℤ) : Res Unit :=
  if amount ≤ 0 then Except.error "Amount should be a positive number."
  else if amount > payment.captured_amount then
    Except.error "Cannot refund more than captured."
  else Except.ok ()

/-- The `if response and response.payment_method_info:` guard shared by
`process_payment`, `authorize`, `capture` and `confirm`. -/
def maybe_update_payment_method (response : Option GatewayResponse) (st : St) : St :=
  match response with
  | some r => if r.payment_method_info.isSome then update_payment_method_details r st else st
  | none => st

/-- Body of `process_payment` (gateway.py lines 76-105), below the decorator
stack.  `gw` stands for `plugin_manager.process_payment` applied to the
payment's gateway. -/
def process_payment_body (gw : PaymentData → GatewayResult) (token : String) : Op :=
  fun _payment st =>
    let payment_data := create_payment_information token none
    let fr := _fetch_gateway_response gw payment_data st
    let response := fr.1.1
    let error := fr.1.2
    let action_required :=
      match response with
      | some r => r.action_required
      | none => false
    let st1 := maybe_update_payment_method response fr.2
    let c := get_already_processed_transaction_or_create_new_transaction
      st1 TransactionKind.CAPTURE action_required payment_data error response
    (Except.ok c.1, c.2)

/-- Body of `authorize` (gateway.py lines 112-129), below the decorator
stack. -/
def authorize_body (gw : PaymentData → GatewayResult) (token : String) : Op :=
  fun payment st =>
    match clean_authorize payment with
    | Except.error e => (Except.error e, st)
    | Except.ok _ =>
      let payment_data := create_payment_information token none
      let fr := _fetch_gateway_response gw payment_data st
      let response := fr.1.1
      let error := fr.1.2
      let st1 := maybe_update_payment_method response fr.2
      let c := get_already_processed_transaction_or_create_new_transaction
        st1 TransactionKind.AUTH false payment_data error response
      (Except.ok c.1, c.2)

/-- Body of `capture` (gateway.py lines 137-159), below the decorator
stack. -/
def capture_body (gw : PaymentData → GatewayResult) (amount? : Option ℤ) : Op :=
  fun payment st =>
    let amount := amount?.getD payment.get_charge_amount
    match clean_capture payment amount with
    | Except.error e => (Except.error e, st)
    | Except.ok _ =>
      match _get_past_transaction_token st TransactionKind.AUTH with
      | Except.error e => (Except.error e, st)
      | Except.ok token =>
        let payment_data := create_payment_information token (some amount)
        let fr := _fetch_gateway_response gw payment_data st
        let response := fr.1.1
        let error := fr.1.2
        let st1 := maybe_update_payment_method response fr.2
        let c := get_already_processed_transaction_or_create_new_transaction
          st1 TransactionKind.CAPTURE false payment_data error response
        (Except.ok c.1, c.2)

/-- Body of `refund` (gateway.py lines 166-198), below the decorator
stack. -/
def refund_body (gw : PaymentData → GatewayResult) (amount? : Option ℤ) : Op :=
  fun payment st =>
    let amount := amount?.getD payment.captured_amount
    match _validate_refund_amount payment amount with
    | Except.error e => (Except.error e, st)
    | Except.ok _ =>
      if ¬ payment.can_refund then (Except.error "This payment cannot be refunded.", st)
      else
        let kind := if payment.is_manual then TransactionKind.EXTERNAL
          else TransactionKind.CAPTURE
        match _get_past_transaction_token st kind with
        | Except.error e => (Except.error e, st)
        | Except.ok token =>
          let payment_data := create_payment_information token (some amount)
          if payment.is_manual then
            let ct := create_transaction st TransactionKind.REFUND payment_data true
            (Except.ok ct.1, ct.2)
          else
            let fr := _fetch_gateway_response gw payment_data st
            let response := fr.1.1
            let error := fr.1.2
            let c := get_already_processed_transaction_or_create_new_transaction
              fr.2 TransactionKind.REFUND false payment_data error response
            (Except.ok c.1, c.2)

/-- Body of `void` (gateway.py lines 205-218), below the decorator stack. -/
def void_body (gw : PaymentData → GatewayResult) : Op :=
  fun _payment st =>
    match _get_past_transaction_token st TransactionKind.AUTH with
    | Except.error e => (Except.error e, st)
    | Except.ok token =>
      let payment_data := create_payment_information token none
      let fr := _fetch_gateway_response gw payment_data st
      let response := fr.1.1
      let error := fr.1.2
      let c := get_already_processed_transaction_or_create_new_transaction
        fr.2 TransactionKind.VOID false payment_data error response
      (Except.ok c.1, c.2)

/-- Body of `confirm` (gateway.py lines 225-247), below the decorator
stack. -/
def confirm_body (gw : PaymentData → GatewayResult) : Op :=
  fun _payment st =>
    let txn? := (st.transactions.filter
      (fun t => t.kind == TransactionKind.ACTION_TO_CONFIRM && t.is_success)).getLast?
    let token :=
      match txn? with
      | some t => t.token
      | none => ""
    let payment_data := create_payment_information token none
    let fr := _fetch_gateway_response gw payment_data st
    let response := fr.1.1
    let error := fr.1.2
    let action_required :=
      match response with
      | some r => r.action_required
      | none => false
    let st1 := maybe_update_payment_method response fr.2
    let c := get_already_processed_transaction_or_create_new_transaction
      st1 TransactionKind.CONFIRM action_required payment_data error response
    (Except.ok c.1, c.2)

/-- `process_payment` with its decorator stack (gateway.py lines 72-105). -/
def process_payment (gw : PaymentData → GatewayResult) (token : String) : Op :=
  orchestrate (process_payment_body gw token)

/-- `authorize` with its decorator stack (gateway.py lines 108-129). -/
def authorize (gw : PaymentData → GatewayResult) (token : String) : Op :=
  orchestrate (authorize_body gw token)

/-- `capture` with its decorator stack (gateway.py lines 132-159): note the
source wraps `capture` in `payment_postprocess` twice — once innermost and
once again outside `raise_payment_error`. -/
def capture (gw : PaymentData → GatewayResult) (amount? : Option ℤ) : Op :=
  payment_postprocess (orchestrate (capture_body gw amount?))

/-- `refund` with its decorator stack (gateway.py lines 162-198). -/
def refund (gw : PaymentData → GatewayResult) (amount? : Option ℤ) : Op :=
  orchestrate (refund_body gw amount?)

/-- `void` with its decorator stack (gateway.py lines 201-218). -/
def void (gw : PaymentData → GatewayResult) : Op :=
  orchestrate (void_body gw)

/-- `confirm` with its decorator stack (gateway.py lines 221-247). -/
def confirm (gw : PaymentData → GatewayResult) : Op :=
  orchestrate (confirm_body gw)

/-- The state after `require_active_payment` has refused an inactive
payment: only the activity-check event was recorded. -/
def inactive_stop (p : Payment) (st : St) : St :=
  { st with events := st.events ++ [Ev.activeCheck p.is_active] }

/-- The state handed to an operation body once the guard decorators have
run: the activity check was recorded, then the lock acquisition; everything
else is unchanged, and the body receives the authoritative row
`st.payment`. -/
def after_guard (p : Payment) (st : St) : St :=
  { st with events := (st.events ++ [Ev.activeCheck p.is_active]) ++ [Ev.lockAcquire] }

/-! ### Concrete fixtures used by witnesses and counterexamples -/

/-- A gateway adapter that always succeeds with token `gwtok`. -/
def gw_success : PaymentData → GatewayResult :=
  fun _ => GatewayResult.ok
    { is_success := true, action_required := false, transaction_id := "gwtok",
      payment_method_info := none, well_formed := true }

/-- A gateway adapter that always raises a gateway error. -/
def gw_fail : PaymentData → GatewayResult := fun _ => GatewayResult.gatewayError

/-- A gateway adapter that returns a well-formed declined response. -/
def gw_declined : PaymentData → GatewayResult :=
  fun _ => GatewayResult.ok
    { is_success := false, action_required := false, transaction_id := "gwtok",
      payment_method_info := none, well_formed := true }

/-- An active gateway payment with 4 of 10 captured. -/
def p_active : Payment :=
  { id := 1, gateway := "dummy", is_active := true, captured_amount := 4, total := 10,
    manual := false, can_refund_flag := true, can_void_flag := true,
    can_authorize_flag := true, payment_method_details := none }

/-- An active manual payment with 10 of 10 captured. -/
def p_manual : Payment :=
  { p_active with manual := true, captured_amount := 10 }

/-- An active payment with nothing captured. -/
def p_zero_captured : Payment := { p_active with captured_amount := 0 }

/-- A successful AUTH ledger row. -/
def tx_auth : Transaction :=
  { kind := TransactionKind.AUTH, token := "authtok", is_success := true,
    action_required := false, error := none }

/-- A successful CAPTURE ledger row. -/
def tx_cap : Transaction :=
  { kind := TransactionKind.CAPTURE, token := "captok", is_success := true,
    action_required := false, error := none }

/-- A successful EXTERNAL ledger row. -/
def tx_ext : Transaction :=
  { kind := TransactionKind.EXTERNAL, token := "exttok", is_success := true,
    action_required := false, error := none }

/-- A successful REFUND ledger row correlated to `tx_ext`'s token, as
written by a previous manual refund. -/
def tx_ref : Transaction :=
  { kind := TransactionKind.REFUND, token := "exttok", is_success := true,
    action_required := false, error := none }

/-- World with one successful AUTH row. -/
def st_auth : St :=
  { payment := p_active, transactions := [tx_auth], postprocess_count := 0, events := [] }

/-- World with one successful CAPTURE row. -/
def st_cap : St :=
  { payment := p_active, transactions := [tx_cap], postprocess_count := 0, events := [] }

/-- World of a manual payment that has already been refunded once: the
ledger holds the successful EXTERNAL row and the successful REFUND row
recorded under the same token. -/
def st_manual : St :=
  { payment := p_manual, transactions := [tx_ext, tx_ref], postprocess_count := 0,
    events := [] }

/-- World whose authoritative payment row has been deactivated, while a
caller still holds the stale active snapshot `p_active`. -/
def st_stale : St :=
  { payment := { p_active with is_active := false }, transactions := [tx_cap],
    postprocess_count := 0, events := [] }

/-- World of a payment with nothing captured. -/
def st_zero : St :=
  { payment := p_zero_captured, transactions := [tx_cap], postprocess_count := 0,
    events := [] }

/-- The synthetic successful REFUND row the manual refund path writes via
`create_transaction`. -/
def synthetic_refund (tok : String) : Transaction :=
  { kind := TransactionKind.REFUND, token := tok, is_success := true,
    action_required := false, error := none }

/-- The response `gw_success` returns. -/
def resp_ok : GatewayResponse :=
  { is_success := true, action_required := false, transaction_id := "gwtok",
    payment_method_info := none, well_formed := true }

/-- The successful CAPTURE row committed when `gw_success` answers a
process/capture call. -/
def tx_gw_capture : Transaction :=
  { kind := TransactionKind.CAPTURE, token := "gwtok", is_success := true,
    action_required := false, error := none }

/-- The world after `process_payment gw_success "tok" p_active st_auth`. -/
def st_after_process : St :=
  { payment := p_active
    transactions := [tx_auth, tx_gw_capture]
    postprocess_count := 1
    events := [Ev.activeCheck true, Ev.lockAcquire,
      Ev.gatewayCall (create_payment_information "tok" none), Ev.postprocessRun] }

/-- The unsuccessful REFUND row committed when `gw_declined` answers a
refund call. -/
def tx_declined_refund : Transaction :=
  { kind := TransactionKind.REFUND, token := "gwtok", is_success := false,
    action_required := false, error := none }

/-- The world produced by `refund_body gw_declined (some 3)` run on
`st_cap.payment` from `after_guard p_active st_cap`. -/
def st_declined : St :=
  { payment := p_active
    transactions := [tx_cap, tx_declined_refund]
    postprocess_count := 0
    events := [Ev.activeCheck true, Ev.lockAcquire,
      Ev.gatewayCall (create_payment_information "captok" (some 3))] }

/-! ### Helper lemmas about the decorator stack -/

theorem fetch_state (fn : PaymentData → GatewayResult) (pd : PaymentData) (st : St) :
    (_fetch_gateway_response fn pd st).2 =
      { st with events := st.events ++ [Ev.gatewayCall pd] } := by
  unfold _fetch_gateway_response
  rcases fn pd with r | _ | _ <;> simp only
  split <;> rfl

theorem commit_state (st : St) (kind : TransactionKind) (action_required : Bool)
    (pd : PaymentData) (error_msg : Option String) (gr : Option GatewayResponse) :
    (get_already_processed_transaction_or_create_new_transaction
        st kind action_required pd error_msg gr).2.events = st.events ∧
    (get_already_processed_transaction_or_create_new_transaction
        st kind action_required pd error_msg gr).2.postprocess_count = st.postprocess_count ∧
    (get_already_processed_transaction_or_create_new_transaction
        st kind action_required pd error_msg gr).2.payment = st.payment := by
  unfold get_already_processed_transaction_or_create_new_transaction
  cases h : (st.transactions.filter
      (fun t => t.kind == kind &&
        t.token == target_token pd gr && t.is_success)).getLast? with
  | none => exact ⟨rfl, rfl, rfl⟩
  | some t => exact ⟨rfl, rfl, rfl⟩

theorem maybe_update_state (response : Option GatewayResponse) (st : St) :
    (maybe_update_payment_method response st).events = st.events ∧
    (maybe_update_payment_method response st).postprocess_count = st.postprocess_count ∧
    (maybe_update_payment_method response st).transactions = st.transactions := by
  rcases response with _ | r
  · exact ⟨rfl, rfl, rfl⟩
  · rcases hr : r.payment_method_info with _ | info <;>
      simp [maybe_update_payment_method, update_payment_method_details, hr]

theorem orchestrate_inactive (body : Op) (p : Payment) (st : St)
    (h : p.is_active = false) :
    orchestrate body p st =
      (Except.error "This payment is no longer active.", inactive_stop p st) := by
  unfold orchestrate raise_payment_error require_active_payment inactive_stop
  simp [h]

theorem orchestrate_active (body : Op) (p : Payment) (st : St)
    (h : p.is_active = true) :
    orchestrate body p st =
      match body st.payment (after_guard p st) with
      | (Except.ok txn, st₁) =>
        ((if txn.is_success then Except.ok txn
          else Except.error (txn_error_message txn)), gateway_postprocess txn st₁)
      | (Except.error e, st₁) => (Except.error e, st₁) := by
  unfold orchestrate raise_payment_error require_active_payment with_locked_payment
    payment_postprocess after_guard
  simp only [h, if_pos]
  rcases hb : body st.payment _ with ⟨res, st₁⟩
  cases res with
  | ok txn => by_cases hs : txn.is_success <;> simp [hs]
  | error e => simp

theorem pp_ok_shape (fn : Op) (p : Payment) (st : St) (txn : Transaction) (st' : St)
    (h : payment_postprocess fn p st = (Except.ok txn, st')) :
    ∃ st₁, fn p st = (Except.ok txn, st₁) ∧ st' = gateway_postprocess txn st₁ := by
  unfold payment_postprocess at h
  rcases hb : fn p st with ⟨res, st₁⟩
  rw [hb] at h
  cases res with
  | ok t =>
    simp only [Prod.mk.injEq, Except.ok.injEq] at h
    exact ⟨st₁, by rw [h.1], by rw [← h.2, h.1]⟩
  | error e => cases h

theorem pp_error_shape (fn : Op) (p : Payment) (st : St) (e : String) (st' : St)
    (h : payment_postprocess fn p st = (Except.error e, st')) :
    fn p st = (Except.error e, st') := by
  unfold payment_postprocess at h
  rcases hb : fn p st with ⟨res, st₁⟩
  rw [hb] at h
  cases res with
  | ok t => cases h
  | error e' =>
    simp only [Prod.mk.injEq, Except.error.injEq] at h
    rw [h.1, h.2]

theorem fetch_count (fn : PaymentData → GatewayResult) (pd : PaymentData) (st : St) :
    (_fetch_gateway_response fn pd st).2.postprocess_count = st.postprocess_count := by
  rw [fetch_state]

theorem commit_count (st : St) (kind : TransactionKind) (action_required : Bool)
    (pd : PaymentData) (error_msg : Option String) (gr : Option GatewayResponse) :
    (get_already_processed_transaction_or_create_new_transaction
        st kind action_required pd error_msg gr).2.postprocess_count =
      st.postprocess_count :=
  (commit_state st kind action_required pd error_msg gr).2.1

theorem maybe_update_count (response : Option GatewayResponse) (st : St) :
    (maybe_update_payment_method response st).postprocess_count = st.postprocess_count :=
  (maybe_update_state response st).2.1

theorem create_transaction_state (st : St) (kind : TransactionKind)
    (pd : PaymentData) (b : Bool) :
    (create_transaction st kind pd b).2.events = st.events ∧
    (create_transaction st kind pd b).2.postprocess_count = st.postprocess_count ∧
    (create_transaction st kind pd b).2.payment = st.payment :=
  ⟨rfl, rfl, rfl⟩

theorem process_body_count (gw : PaymentData → GatewayResult) (token : String)
    (payment : Payment) (st : St) :
    (process_payment_body gw token payment st).2.postprocess_count =
      st.postprocess_count := by
  unfold process_payment_body
  simp [commit_count, maybe_update_count, fetch_count]

theorem authorize_body_count (gw : PaymentData → GatewayResult) (token : String)
    (payment : Payment) (st : St) :
    (authorize_body gw token payment st).2.postprocess_count =
      st.postprocess_count := by
  unfold authorize_body
  cases hca : clean_authorize payment with
  | error e => simp [hca]
  | ok u => simp [hca, commit_count, maybe_update_count, fetch_count]

theorem capture_body_count (gw : PaymentData → GatewayResult) (amount? : Option ℤ)
    (payment : Payment) (st : St) :
    (capture_body gw amount? payment st).2.postprocess_count =
      st.postprocess_count := by
  unfold capture_body
  cases hcc : clean_capture payment (amount?.getD payment.get_charge_amount) with
  | error e => simp [hcc]
  | ok u =>
    cases ht : _get_past_transaction_token st TransactionKind.AUTH with
    | error e => simp [hcc, ht]
    | ok token => simp [hcc, ht, commit_count, maybe_update_count, fetch_count]

theorem refund_body_count (gw : PaymentData → GatewayResult) (amount? : Option ℤ)
    (payment : Payment) (st : St) :
    (refund_body gw amount? payment st).2.postprocess_count =
      st.postprocess_count := by
  unfold refund_body
  cases hv : _validate_refund_amount payment (amount?.getD payment.captured_amount) with
  | error e => simp [hv]
  | ok u =>
    by_cases hr : payment.can_refund = true
    · cases ht : _get_past_transaction_token st
          (if payment.is_manual = true then TransactionKind.EXTERNAL
           else TransactionKind.CAPTURE) with
      | error e => simp [hv, hr, ht]
      | ok token =>
        by_cases hm : payment.is_manual = true
        · rw [if_pos hm] at ht
          simp [hv, hr, ht, hm,
            (create_transaction_state st TransactionKind.REFUND
              (create_payment_information token
                (some (amount?.getD payment.captured_amount))) true).2.1]
        · rw [if_neg hm] at ht
          simp [hv, hr, ht, hm, commit_count, fetch_count]
    · simp [hv, hr]

theorem void_body_count (gw : PaymentData → GatewayResult)
    (payment : Payment) (st : St) :
    (void_body gw payment st).2.postprocess_count = st.postprocess_count := by
  unfold void_body
  cases ht : _get_past_transaction_token st TransactionKind.AUTH with
  | error e => simp [ht]
  | ok token => simp [ht, commit_count, fetch_count]

theorem confirm_body_count (gw : PaymentData → GatewayResult)
    (payment : Payment) (st : St) :
    (confirm_body gw payment st).2.postprocess_count = st.postprocess_count := by
  unfold confirm_body
  simp [commit_count, maybe_update_count, fetch_count]

theorem orchestrate_ok_shape (body : Op) (p : Payment) (st : St) (txn : Transaction)
    (st' : St) (h : orchestrate body p st = (Except.ok txn, st')) :
    p.is_active = true ∧ txn.is_success = true ∧
      ∃ st₁, body st.payment (after_guard p st) = (Except.ok txn, st₁) ∧
        st' = gateway_postprocess txn st₁ := by
  by_cases ha : p.is_active
  · rw [orchestrate_active body p st ha] at h
    rcases hb : body st.payment (after_guard p st) with ⟨res, st₁⟩
    rw [hb] at h
    cases res with
    | ok t =>
      by_cases hs : t.is_success <;> simp [hs] at h
      rcases h with ⟨h1, h2⟩
      exact ⟨ha, by rw [← h1]; exact hs, st₁, by rw [h1], h2.symm⟩
    | error e => cases h
  · rw [orchestrate_inactive body p st (by simpa using ha)] at h
    cases h

theorem commit_events (st : St) (kind : TransactionKind) (action_required : Bool)
    (pd : PaymentData) (error_msg : Option String) (gr : Option GatewayResponse) :
    (get_already_processed_transaction_or_create_new_transaction
        st kind action_required pd error_msg gr).2.events = st.events :=
  (commit_state st kind action_required pd error_msg gr).1

theorem maybe_update_events (response : Option GatewayResponse) (st : St) :
    (maybe_update_payment_method response st).events = st.events :=
  (maybe_update_state response st).1

theorem get_past_none (st : St) (kind : TransactionKind)
    (h : st.transactions.filter (fun t => t.kind == kind && t.is_success) = []) :
    _get_past_transaction_token st kind =
      Except.error ("Cannot find successful " ++ kindStr kind ++ " transaction.") := by
  unfold _get_past_transaction_token
  rw [h]
  rfl

theorem get_past_some (st : St) (kind : TransactionKind) (ta : Transaction)
    (h : (st.transactions.filter
      (fun t => t.kind == kind && t.is_success)).getLast? = some ta) :
    _get_past_transaction_token st kind = Except.ok ta.token := by
  unfold _get_past_transaction_token
  rw [h]

theorem capture_body_no_auth (gw : PaymentData → GatewayResult) (amount? : Option ℤ)
    (payment : Payment) (st : St)
    (hcc : clean_capture payment (amount?.getD payment.get_charge_amount) = Except.ok ())
    (hn : st.transactions.filter
      (fun t => t.kind == TransactionKind.AUTH && t.is_success) = []) :
    capture_body gw amount? payment st =
      (Except.error "Cannot find successful AUTH transaction.", st) := by
  unfold capture_body
  simp only [hcc, get_past_none st TransactionKind.AUTH hn]
  rfl

theorem capture_body_with_auth (gw : PaymentData → GatewayResult) (amount? : Option ℤ)
    (payment : Payment) (st : St) (ta : Transaction)
    (hcc : clean_capture payment (amount?.getD payment.get_charge_amount) = Except.ok ())
    (hl : (st.transactions.filter
      (fun t => t.kind == TransactionKind.AUTH && t.is_success)).getLast? = some ta) :
    ∃ txn st₁, capture_body gw amount? payment st = (Except.ok txn, st₁) ∧
      st₁.events = st.events ++
        [Ev.gatewayCall (create_payment_information ta.token
          (some (amount?.getD payment.get_charge_amount)))] := by
  unfold capture_body
  simp only [hcc, get_past_some st TransactionKind.AUTH ta hl]
  refine ⟨_, _, rfl, ?_⟩
  simp [commit_events, maybe_update_events, fetch_state]

theorem refund_body_manual (gw : PaymentData → GatewayResult) (amount? : Option ℤ)
    (payment : Payment) (st : St) (tok : String)
    (hv : _validate_refund_amount payment (amount?.getD payment.captured_amount) =
      Except.ok ())
    (hr : payment.can_refund = true)
    (hm : payment.is_manual = true)
    (ht : _get_past_transaction_token st TransactionKind.EXTERNAL = Except.ok tok) :
    refund_body gw amount? payment st =
      (Except.ok (synthetic_refund tok),
        { st with transactions := st.transactions ++ [synthetic_refund tok] }) := by
  unfold refund_body
  simp [hv, hr, hm, ht, create_transaction, create_payment_information, synthetic_refund]

theorem commit_idempotent (st : St) (kind : TransactionKind) (ar : Bool)
    (pd : PaymentData) (err : Option String) (gr : Option GatewayResponse)
    (h : st.transactions.filter
        (fun t => t.kind == kind && t.token == target_token pd gr && t.is_success) ≠ []) :
    (get_already_processed_transaction_or_create_new_transaction
        st kind ar pd err gr).2 = st ∧
    (get_already_processed_transaction_or_create_new_transaction
        st kind ar pd err gr).1 ∈ st.transactions ∧
    (get_already_processed_transaction_or_create_new_transaction
        st kind ar pd err gr).1.kind = kind ∧
    (get_already_processed_transaction_or_create_new_transaction
        st kind ar pd err gr).1.token = target_token pd gr ∧
    (get_already_processed_transaction_or_create_new_transaction
        st kind ar pd err gr).1.is_success = true := by
  have hl := List.getLast?_eq_getLast_of_ne_nil h
  have hmem : (st.transactions.filter
      (fun t => t.kind == kind && t.token == target_token pd gr && t.is_success)).getLast h
        ∈ st.transactions.filter
          (fun t => t.kind == kind && t.token == target_token pd gr && t.is_success) :=
    List.getLast_mem h
  obtain ⟨hmem', hp⟩ := List.mem_filter.1 hmem
  simp only [Bool.and_eq_true, beq_iff_eq] at hp
  unfold get_already_processed_transaction_or_create_new_transaction
  rw [hl]
  exact ⟨rfl, hmem', hp.1.1, hp.1.2, hp.2⟩

theorem orchestrate_ok_count (body : Op) (p : Payment) (st : St) (txn : Transaction)
    (st' : St)
    (hbc : ∀ payment s, (body payment s).2.postprocess_count = s.postprocess_count)
    (h : orchestrate body p st = (Except.ok txn, st')) :
    st'.postprocess_count = st.postprocess_count + 1 := by
  obtain ⟨ha, hs, st₁, hb, he⟩ := orchestrate_ok_shape body p st txn st' h
  have hc := hbc st.payment (after_guard p st)
  rw [hb] at hc
  rw [he]
  simp only [gateway_postprocess]
  rw [hc]
  rfl

/-! ### Claims -/

/-- C1, counterexample: on a manual payment whose ledger already holds a
successful REFUND transaction under the very token the new call correlates
to, `refund` does not return the existing row: it appends a fresh REFUND
row, so the no-duplicate property does not hold on the manual refund write
path. -/
theorem C1_counterexample :
    st_manual.transactions.filter
      (fun t => t.kind == TransactionKind.REFUND && t.token == "exttok" &&
        t.is_success) ≠ [] ∧
    (refund gw_fail (some 3) p_manual st_manual).2.transactions.length =
      st_manual.transactions.length + 1 ∧
    (refund gw_fail (some 3) p_manual st_manual).1 =
      Except.ok (synthetic_refund "exttok") := by
  decide

/-- C1, amended: for every payment, kind and correlating token, if a
successful Transaction with that kind and token already exists, the commit
step `get_already_processed_transaction_or_create_new_transaction` — the
write path of process, authorize, capture, void, confirm and non-manual
refund — returns an existing matching Transaction and inserts no new row;
refund on a manual payment is the exception: it bypasses this step through
`create_transaction` and always inserts a new synthetic row. -/
theorem C1_idempotent_commit :
    ∀ (st : St) (kind : TransactionKind) (ar : Bool) (pd : PaymentData)
      (err : Option String) (gr : Option GatewayResponse),
    st.transactions.filter
        (fun t => t.kind == kind && t.token == target_token pd gr && t.is_success)
      ≠ [] →
    (get_already_processed_transaction_or_create_new_transaction
        st kind ar pd err gr).2 = st ∧
    (get_already_processed_transaction_or_create_new_transaction
        st kind ar pd err gr).1 ∈ st.transactions ∧
    (get_already_processed_transaction_or_create_new_transaction
        st kind ar pd err gr).1.kind = kind ∧
    (get_already_processed_transaction_or_create_new_transaction
        st kind ar pd err gr).1.token = target_token pd gr ∧
    (get_already_processed_transaction_or_create_new_transaction
        st kind ar pd err gr).1.is_success = true :=
  fun st kind ar pd err gr h => commit_idempotent st kind ar pd err gr h

/-- C1, witness: the commit step on a ledger already holding a successful
REFUND row with the target token returns without touching the world. -/
theorem C1_witness :
    (get_already_processed_transaction_or_create_new_transaction st_manual
        TransactionKind.REFUND false (create_payment_information "exttok" (some 3))
        none none).2 = st_manual ∧
    (get_already_processed_transaction_or_create_new_transaction st_manual
        TransactionKind.REFUND false (create_payment_information "exttok" (some 3))
        none none).1 ∈ st_manual.transactions :=
  ⟨(C1_idempotent_commit st_manual TransactionKind.REFUND false
      (create_payment_information "exttok" (some 3)) none none (by decide)).1,
   (C1_idempotent_commit st_manual TransactionKind.REFUND false
      (create_payment_information "exttok" (some 3)) none none (by decide)).2.1⟩

/-- C2: every orchestrator call either returns a transaction whose
`is_success` flag is true, or raises `PaymentError` carrying the
transaction's error message — or the generic `Transaction was
unsuccessful.` when the stored message is absent or empty; an unsuccessful
transaction is never handed back to the caller. -/
theorem C2_success_or_error :
    (∀ gw tok p st txn st',
       process_payment gw tok p st = (Except.ok txn, st') → txn.is_success = true) ∧
    (∀ gw tok p st txn st',
       authorize gw tok p st = (Except.ok txn, st') → txn.is_success = true) ∧
    (∀ gw amount? p st txn st',
       capture gw amount? p st = (Except.ok txn, st') → txn.is_success = true) ∧
    (∀ gw amount? p st txn st',
       refund gw amount? p st = (Except.ok txn, st') → txn.is_success = true) ∧
    (∀ gw p st txn st',
       void gw p st = (Except.ok txn, st') → txn.is_success = true) ∧
    (∀ gw p st txn st',
       confirm gw p st = (Except.ok txn, st') → txn.is_success = true) ∧
    (∀ (fn : Op) p st txn st', fn p st = (Except.ok txn, st') →
       txn.is_success = false →
       raise_payment_error fn p st = (Except.error (txn_error_message txn), st')) ∧
    (∀ txn : Transaction, txn.error = none ∨ txn.error = some "" →
       txn_error_message txn = GENERIC_TRANSACTION_ERROR) ∧
    (∀ (txn : Transaction) (s : String), txn.error = some s → s ≠ "" →
       txn_error_message txn = s) := by
  refine ⟨?_, ?_, ?_, ?_, ?_, ?_, ?_, ?_, ?_⟩
  · intro gw tok p st txn st' h
    exact (orchestrate_ok_shape _ p st txn st' h).2.1
  · intro gw tok p st txn st' h
    exact (orchestrate_ok_shape _ p st txn st' h).2.1
  · intro gw amount? p st txn st' h
    obtain ⟨st₁, h1, _⟩ := pp_ok_shape _ p st txn st' h
    exact (orchestrate_ok_shape _ p st txn st₁ h1).2.1
  · intro gw amount? p st txn st' h
    exact (orchestrate_ok_shape _ p st txn st' h).2.1
  · intro gw p st txn st' h
    exact (orchestrate_ok_shape _ p st txn st' h).2.1
  · intro gw p st txn st' h
    exact (orchestrate_ok_shape _ p st txn st' h).2.1
  · intro fn p st txn st' h hs
    unfold raise_payment_error
    rw [h]
    simp [hs]
  · intro txn h
    unfold txn_error_message
    rcases h with h | h <;> simp [h]
  · intro txn s h hs
    unfold txn_error_message
    rw [h]
    simp [hs]

/-- C2, witness: a successful process call returns a successful
transaction. -/
theorem C2_witness :
    tx_gw_capture.is_success = true ∧
    process_payment gw_success "tok" p_active st_auth =
      (Except.ok tx_gw_capture, st_after_process) :=
  ⟨C2_success_or_error.1 gw_success "tok" p_active st_auth tx_gw_capture
      st_after_process (by decide),
   by decide⟩

/-- C3: an orchestrator call on a payment whose `is_active` flag is false
fails with the inactive-payment error before the wrapped body runs: no
gateway adapter is invoked, no transaction is created and the
post-processing hook does not run — only the activity-check event is
recorded. -/
theorem C3_inactive_guard :
    ∀ (gw : PaymentData → GatewayResult) (tok : String) (amount? : Option ℤ)
      (p : Payment) (st : St), p.is_active = false →
    process_payment gw tok p st =
      (Except.error "This payment is no longer active.", inactive_stop p st) ∧
    authorize gw tok p st =
      (Except.error "This payment is no longer active.", inactive_stop p st) ∧
    capture gw amount? p st =
      (Except.error "This payment is no longer active.", inactive_stop p st) ∧
    refund gw amount? p st =
      (Except.error "This payment is no longer active.", inactive_stop p st) ∧
    void gw p st =
      (Except.error "This payment is no longer active.", inactive_stop p st) ∧
    confirm gw p st =
      (Except.error "This payment is no longer active.", inactive_stop p st) ∧
    (inactive_stop p st).transactions = st.transactions ∧
    (inactive_stop p st).postprocess_count = st.postprocess_count ∧
    (∀ pd, Ev.gatewayCall pd ∈ (inactive_stop p st).events →
       Ev.gatewayCall pd ∈ st.events) := by
  intro gw tok amount? p st h
  have hcap : capture gw amount? p st =
      (Except.error "This payment is no longer active.", inactive_stop p st) := by
    show payment_postprocess (orchestrate (capture_body gw amount?)) p st = _
    unfold payment_postprocess
    rw [orchestrate_inactive (capture_body gw amount?) p st h]
  refine ⟨orchestrate_inactive _ p st h, orchestrate_inactive _ p st h, hcap,
    orchestrate_inactive _ p st h, orchestrate_inactive _ p st h,
    orchestrate_inactive _ p st h, rfl, rfl, ?_⟩
  intro pd hpd
  simp only [inactive_stop, List.mem_append, List.mem_singleton] at hpd
  rcases hpd with h' | h'
  · exact h'
  · simp at h'

/-- C3, witness: a concrete inactive payment is refused by process and
capture with only the activity check recorded. -/
theorem C3_witness :
    process_payment gw_success "tok" { p_active with is_active := false } st_auth =
      (Except.error "This payment is no longer active.",
        inactive_stop { p_active with is_active := false } st_auth) ∧
    capture gw_success (some 5) { p_active with is_active := false } st_auth =
      (Except.error "This payment is no longer active.",
        inactive_stop { p_active with is_active := false } st_auth) :=
  ⟨(C3_inactive_guard gw_success "tok" (some 5)
      { p_active with is_active := false } st_auth (by decide)).1,
   (C3_inactive_guard gw_success "tok" (some 5)
      { p_active with is_active := false } st_auth (by decide)).2.2.1⟩

/-- C4, counterexample: with a stale active snapshot of a payment whose
authoritative row has been deactivated, `refund` passes the activity check
and calls the gateway: the check reads the caller-supplied snapshot, not
the row reloaded under the lock, and the trace shows the check happening
before the lock acquisition. -/
theorem C4_counterexample :
    st_stale.payment.is_active = false ∧
    p_active.is_active = true ∧
    (refund gw_success (some 3) p_active st_stale).1 ≠
      Except.error "This payment is no longer active." ∧
    (refund gw_success (some 3) p_active st_stale).2.events =
      [Ev.activeCheck true, Ev.lockAcquire,
       Ev.gatewayCall (create_payment_information "captok" (some 3)),
       Ev.postprocessRun] := by
  decide

/-- C4, amended: in every orchestrator the `is_active` check is evaluated
on the caller-supplied snapshot before the exclusive lock is acquired and
the authoritative row reloaded; only once the snapshot check passes does
the wrapped body run, on the authoritative row, with the trace recording
the activity check strictly before the lock acquisition.  The last
conjunct ties the six exported operations to the two decorator stacks the
statement quantifies over. -/
theorem C4_guard_order :
    (∀ (body : Op) (p : Payment) (st : St), p.is_active = false →
       orchestrate body p st =
         (Except.error "This payment is no longer active.", inactive_stop p st) ∧
       payment_postprocess (orchestrate body) p st =
         (Except.error "This payment is no longer active.", inactive_stop p st)) ∧
    (∀ (body : Op) (p : Payment) (st : St), p.is_active = true →
       orchestrate body p st =
         match body st.payment (after_guard p st) with
         | (Except.ok txn, st₁) =>
           ((if txn.is_success then Except.ok txn
             else Except.error (txn_error_message txn)), gateway_postprocess txn st₁)
         | (Except.error e, st₁) => (Except.error e, st₁)) ∧
    (∀ (p : Payment) (st : St),
       (after_guard p st).events =
         st.events ++ [Ev.activeCheck p.is_active, Ev.lockAcquire] ∧
       (after_guard p st).payment = st.payment ∧
       (after_guard p st).transactions = st.transactions ∧
       (inactive_stop p st).events = st.events ++ [Ev.activeCheck p.is_active]) ∧
    (∀ (gw : PaymentData → GatewayResult) (tok : String) (amount? : Option ℤ),
       process_payment gw tok = orchestrate (process_payment_body gw tok) ∧
       authorize gw tok = orchestrate (authorize_body gw tok) ∧
       capture gw amount? = payment_postprocess (orchestrate (capture_body gw amount?)) ∧
       refund gw amount? = orchestrate (refund_body gw amount?) ∧
       void gw = orchestrate (void_body gw) ∧
       confirm gw = orchestrate (confirm_body gw)) := by
  refine ⟨?_, ?_, ?_, ?_⟩
  · intro body p st h
    refine ⟨orchestrate_inactive body p st h, ?_⟩
    unfold payment_postprocess
    rw [orchestrate_inactive body p st h]
  · intro body p st h
    exact orchestrate_active body p st h
  · intro p st
    exact ⟨by simp [after_guard], rfl, rfl, rfl⟩
  · intro gw tok amount?
    exact ⟨rfl, rfl, rfl, rfl, rfl, rfl⟩

/-- C4, witness: a concrete inactive snapshot is refused before the lock,
and a concrete guard state records the check before the lock. -/
theorem C4_witness :
    orchestrate (refund_body gw_success (some 3))
        { p_active with is_active := false } st_cap =
      (Except.error "This payment is no longer active.",
        inactive_stop { p_active with is_active := false } st_cap) ∧
    (after_guard p_active st_cap).events =
      st_cap.events ++ [Ev.activeCheck true, Ev.lockAcquire] :=
  ⟨(C4_guard_order.1 (refund_body gw_success (some 3))
      { p_active with is_active := false } st_cap (by decide)).1,
   (C4_guard_order.2.2.1 p_active st_cap).1⟩

/-- C5: `_fetch_gateway_response` returns the validated response and no
error when the gateway function returns a well-formed response, and the
fixed generic `Oops! Something went wrong.` with a null response when the
function raises a gateway error or a payment error or the response fails
validation; its error component is never anything but `none` or the fixed
generic string, so nothing gateway-internal crosses the boundary. -/
theorem C5_gateway_boundary :
    ∀ (fn : PaymentData → GatewayResult) (pd : PaymentData) (st : St),
    (∀ r, fn pd = GatewayResult.ok r → validate_gateway_response r = true →
       _fetch_gateway_response fn pd st =
         ((some r, none),
           { st with events := st.events ++ [Ev.gatewayCall pd] })) ∧
    (∀ r, fn pd = GatewayResult.ok r → validate_gateway_response r = false →
       _fetch_gateway_response fn pd st =
         ((none, some ERROR_MSG),
           { st with events := st.events ++ [Ev.gatewayCall pd] })) ∧
    (fn pd = GatewayResult.gatewayError →
       _fetch_gateway_response fn pd st =
         ((none, some ERROR_MSG),
           { st with events := st.events ++ [Ev.gatewayCall pd] })) ∧
    (fn pd = GatewayResult.paymentError →
       _fetch_gateway_response fn pd st =
         ((none, some ERROR_MSG),
           { st with events := st.events ++ [Ev.gatewayCall pd] })) ∧
    ((_fetch_gateway_response fn pd st).1.2 = none ∨
       (_fetch_gateway_response fn pd st).1.2 = some ERROR_MSG) := by
  intro fn pd st
  refine ⟨?_, ?_, ?_, ?_, ?_⟩
  · intro r h hv
    simp [_fetch_gateway_response, h, hv]
  · intro r h hv
    simp [_fetch_gateway_response, h, hv]
  · intro h
    simp [_fetch_gateway_response, h]
  · intro h
    simp [_fetch_gateway_response, h]
  · rcases hg : fn pd with r | _ | _
    · by_cases hv : validate_gateway_response r = true
      · left
        simp [_fetch_gateway_response, hg, hv]
      · right
        rw [Bool.not_eq_true] at hv
        simp [_fetch_gateway_response, hg, hv]
    · right
      simp [_fetch_gateway_response, hg]
    · right
      simp [_fetch_gateway_response, hg]

/-- C5, witness: the boundary at a succeeding and at a raising gateway. -/
theorem C5_witness :
    _fetch_gateway_response gw_success (create_payment_information "tok" none)
        st_auth =
      ((some resp_ok, none),
        { st_auth with events := st_auth.events ++
          [Ev.gatewayCall (create_payment_information "tok" none)] }) ∧
    _fetch_gateway_response gw_fail (create_payment_information "tok" none)
        st_auth =
      ((none, some ERROR_MSG),
        { st_auth with events := st_auth.events ++
          [Ev.gatewayCall (create_payment_information "tok" none)] }) :=
  ⟨(C5_gateway_boundary gw_success (create_payment_information "tok" none)
      st_auth).1 resp_ok rfl rfl,
   (C5_gateway_boundary gw_fail (create_payment_information "tok" none)
      st_auth).2.2.1 rfl⟩

/-- C6, counterexample: on a payment with nothing captured, refunding
exactly the captured amount does not pass the amount validation — the
non-positive check fires first — so the claim's `amount = capturedAmount
passes` clause fails for `capturedAmount = 0`. -/
theorem C6_counterexample :
    p_zero_captured.captured_amount = 0 ∧
    _validate_refund_amount p_zero_captured p_zero_captured.captured_amount =
      Except.error "Amount should be a positive number." ∧
    (refund gw_success (some p_zero_captured.captured_amount) p_zero_captured
        st_zero).1 =
      Except.error "Amount should be a positive number." := by
  decide

/-- C6, amended: refund amount validation fails on a non-positive amount,
fails on an amount exceeding the captured amount, and passes on an amount
equal to the captured amount provided that amount is positive; when no
amount is supplied the call behaves exactly as a call passing the
payment's captured amount. -/
theorem C6_refund_amount_bounds :
    ∀ (p : Payment) (amount : ℤ) (gw : PaymentData → GatewayResult) (st : St)
      (q : Payment),
    (amount ≤ 0 → _validate_refund_amount p amount =
       Except.error "Amount should be a positive number.") ∧
    (0 < amount → p.captured_amount < amount →
       _validate_refund_amount p amount =
         Except.error "Cannot refund more than captured.") ∧
    (0 < amount → amount = p.captured_amount →
       _validate_refund_amount p amount = Except.ok ()) ∧
    refund gw none q st = refund gw (some st.payment.captured_amount) q st := by
  intro p amount gw st q
  refine ⟨?_, ?_, ?_, ?_⟩
  · intro h
    unfold _validate_refund_amount
    rw [if_pos h]
  · intro h0 hc
    unfold _validate_refund_amount
    rw [if_neg (by omega), if_pos (by omega)]
  · intro h0 he
    unfold _validate_refund_amount
    rw [if_neg (by omega), if_neg (by omega)]
  · by_cases ha : q.is_active = true
    · show orchestrate (refund_body gw none) q st =
        orchestrate (refund_body gw (some st.payment.captured_amount)) q st
      rw [orchestrate_active (refund_body gw none) q st ha,
        orchestrate_active (refund_body gw (some st.payment.captured_amount)) q st ha]
      rfl
    · have ha' : q.is_active = false := by simpa using ha
      show orchestrate (refund_body gw none) q st =
        orchestrate (refund_body gw (some st.payment.captured_amount)) q st
      rw [orchestrate_inactive (refund_body gw none) q st ha',
        orchestrate_inactive (refund_body gw (some st.payment.captured_amount)) q st ha']

/-- C6, witness: the bounds at a payment with 4 captured, and the
defaulting of a missing amount to the captured amount. -/
theorem C6_witness :
    _validate_refund_amount p_active 0 =
      Except.error "Amount should be a positive number." ∧
    _validate_refund_amount p_active 5 =
      Except.error "Cannot refund more than captured." ∧
    _validate_refund_amount p_active 4 = Except.ok () ∧
    refund gw_success none p_active st_cap =
      refund gw_success (some 4) p_active st_cap :=
  ⟨(C6_refund_amount_bounds p_active 0 gw_success st_cap p_active).1 (by decide),
   (C6_refund_amount_bounds p_active 5 gw_success st_cap p_active).2.1
     (by decide) (by decide),
   (C6_refund_amount_bounds p_active 4 gw_success st_cap p_active).2.2.1
     (by decide) (by decide),
   (C6_refund_amount_bounds p_active 4 gw_success st_cap p_active).2.2.2⟩

/-- C7: when the amount check passes, `capture` on a payment with no prior
successful AUTH transaction fails with `Cannot find successful AUTH
transaction.` before any gateway call; when a most-recent successful AUTH
transaction exists, capture proceeds and invokes the gateway with a payload
whose token equals that AUTH transaction's token. -/
theorem C7_capture_preconditions :
    ∀ (gw : PaymentData → GatewayResult) (amount? : Option ℤ) (p : Payment)
      (st : St),
    p.is_active = true →
    clean_capture st.payment (amount?.getD st.payment.get_charge_amount) =
      Except.ok () →
    (st.transactions.filter
        (fun t => t.kind == TransactionKind.AUTH && t.is_success) = [] →
      capture gw amount? p st =
        (Except.error "Cannot find successful AUTH transaction.", after_guard p st) ∧
      (∀ pd, Ev.gatewayCall pd ∈ (after_guard p st).events →
        Ev.gatewayCall pd ∈ st.events)) ∧
    (∀ ta, (st.transactions.filter
        (fun t => t.kind == TransactionKind.AUTH && t.is_success)).getLast? =
          some ta →
      Ev.gatewayCall (create_payment_information ta.token
          (some (amount?.getD st.payment.get_charge_amount))) ∈
        (capture gw amount? p st).2.events) := by
  intro gw amount? p st ha hcc
  constructor
  · intro hn
    have hb := capture_body_no_auth gw amount? st.payment (after_guard p st) hcc hn
    have ho := orchestrate_active (capture_body gw amount?) p st ha
    rw [hb] at ho
    constructor
    · show payment_postprocess (orchestrate (capture_body gw amount?)) p st = _
      unfold payment_postprocess
      rw [ho]
    · intro pd hpd
      simp only [after_guard, List.mem_append, List.mem_singleton] at hpd
      rcases hpd with (h' | h') | h'
      · exact h'
      · simp at h'
      · simp at h'
  · intro ta hl
    obtain ⟨txn, st₁, hb, he⟩ :=
      capture_body_with_auth gw amount? st.payment (after_guard p st) ta hcc hl
    have ho := orchestrate_active (capture_body gw amount?) p st ha
    rw [hb] at ho
    have hmem : Ev.gatewayCall (create_payment_information ta.token
        (some (amount?.getD st.payment.get_charge_amount))) ∈ st₁.events := by
      rw [he]
      simp
    show Ev.gatewayCall _ ∈
      (payment_postprocess (orchestrate (capture_body gw amount?)) p st).2.events
    unfold payment_postprocess
    rw [ho]
    by_cases hs : txn.is_success = true
    · simp [hs, gateway_postprocess, hmem]
    · simp [hs, gateway_postprocess, hmem]

/-- C7, witness: a ledger with no AUTH row is refused, and with an AUTH
row the gateway payload's token is the AUTH transaction's token. -/
theorem C7_witness :
    capture gw_success (some 5) p_active st_cap =
      (Except.error "Cannot find successful AUTH transaction.",
        after_guard p_active st_cap) ∧
    Ev.gatewayCall (create_payment_information "authtok" (some 5)) ∈
      (capture gw_success (some 5) p_active st_auth).2.events :=
  ⟨((C7_capture_preconditions gw_success (some 5) p_active st_cap
      (by decide) (by decide)).1 (by decide)).1,
   (C7_capture_preconditions gw_success (some 5) p_active st_auth
      (by decide) (by decide)).2 tx_auth (by decide)⟩

/-- C8: `refund` on an active manual payment that passes the amount
validation and the `can_refund` check and has a prior successful EXTERNAL
transaction commits a successful REFUND transaction — carrying the EXTERNAL
transaction's token — without invoking any gateway function: the quantified
gateway `gw` is never applied, and the trace gains no gateway-call
event. -/
theorem C8_manual_refund :
    ∀ (gw : PaymentData → GatewayResult) (amount? : Option ℤ) (p : Payment)
      (st : St) (tok : String),
    p.is_active = true →
    st.payment.is_manual = true →
    st.payment.can_refund = true →
    _validate_refund_amount st.payment (amount?.getD st.payment.captured_amount) =
      Except.ok () →
    _get_past_transaction_token st TransactionKind.EXTERNAL = Except.ok tok →
    refund gw amount? p st =
      (Except.ok (synthetic_refund tok),
        gateway_postprocess (synthetic_refund tok)
          { after_guard p st with
            transactions := st.transactions ++ [synthetic_refund tok] }) ∧
    (synthetic_refund tok).kind = TransactionKind.REFUND ∧
    (synthetic_refund tok).is_success = true ∧
    (∀ pd, Ev.gatewayCall pd ∈ (refund gw amount? p st).2.events →
       Ev.gatewayCall pd ∈ st.events) := by
  intro gw amount? p st tok ha hm hr hv ht
  have hb := refund_body_manual gw amount? st.payment (after_guard p st) tok hv hr hm ht
  have ho := orchestrate_active (refund_body gw amount?) p st ha
  rw [hb] at ho
  have ho' : orchestrate (refund_body gw amount?) p st =
      (Except.ok (synthetic_refund tok),
        gateway_postprocess (synthetic_refund tok)
          { after_guard p st with
            transactions := st.transactions ++ [synthetic_refund tok] }) := ho
  refine ⟨ho', rfl, rfl, ?_⟩
  intro pd hpd
  have hre : refund gw amount? p st =
      (Except.ok (synthetic_refund tok),
        gateway_postprocess (synthetic_refund tok)
          { after_guard p st with
            transactions := st.transactions ++ [synthetic_refund tok] }) := ho'
  rw [hre] at hpd
  simp only [gateway_postprocess, after_guard, List.mem_append,
    List.mem_singleton] at hpd
  rcases hpd with ((h' | h') | h') | h'
  · exact h'
  · simp at h'
  · simp at h'
  · simp at h'

/-- C8, witness: a manual refund over the EXTERNAL row's token commits the
synthetic successful REFUND with no gateway event, under a gateway stub
that would fail if it were ever called. -/
theorem C8_witness :
    refund gw_fail (some 3) p_manual st_manual =
      (Except.ok (synthetic_refund "exttok"),
        gateway_postprocess (synthetic_refund "exttok")
          { after_guard p_manual st_manual with
            transactions := st_manual.transactions ++ [synthetic_refund "exttok"] }) :=
  (C8_manual_refund gw_fail (some 3) p_manual st_manual "exttok"
    (by decide) (by decide) (by decide) (by decide) (by decide)).1

/-- C9, counterexample: the claim says `process` runs the post-processing
hook twice per call and every other operation once; on concrete runs
`process_payment` runs the hook exactly once, and it is `capture` that
runs it twice. -/
theorem C9_counterexample :
    st_auth.postprocess_count = 0 ∧
    (process_payment gw_success "tok" p_active st_auth).2.postprocess_count = 1 ∧
    (process_payment gw_success "tok" p_active st_auth).2.postprocess_count ≠ 2 ∧
    (capture gw_success (some 5) p_active st_auth).2.postprocess_count = 2 := by
  decide

/-- C9, amended: on every call that returns a transaction — including the
idempotent-reuse path — the post-processing hook runs exactly once for
`process_payment`, `authorize`, `refund`, `void` and `confirm`; the
doubly-wrapped operation is `capture` (not `process`), which runs the hook
exactly twice per returning call. -/
theorem C9_postprocess_multiplicity :
    ∀ (gw : PaymentData → GatewayResult) (tok : String) (amount? : Option ℤ)
      (p : Payment) (st : St),
    (∀ txn st', process_payment gw tok p st = (Except.ok txn, st') →
       st'.postprocess_count = st.postprocess_count + 1) ∧
    (∀ txn st', authorize gw tok p st = (Except.ok txn, st') →
       st'.postprocess_count = st.postprocess_count + 1) ∧
    (∀ txn st', capture gw amount? p st = (Except.ok txn, st') →
       st'.postprocess_count = st.postprocess_count + 2) ∧
    (∀ txn st', refund gw amount? p st = (Except.ok txn, st') →
       st'.postprocess_count = st.postprocess_count + 1) ∧
    (∀ txn st', void gw p st = (Except.ok txn, st') →
       st'.postprocess_count = st.postprocess_count + 1) ∧
    (∀ txn st', confirm gw p st = (Except.ok txn, st') →
       st'.postprocess_count = st.postprocess_count + 1) := by
  intro gw tok amount? p st
  refine ⟨?_, ?_, ?_, ?_, ?_, ?_⟩
  · intro txn st' h
    exact orchestrate_ok_count _ p st txn st' (process_body_count gw tok) h
  · intro txn st' h
    exact orchestrate_ok_count _ p st txn st' (authorize_body_count gw tok) h
  · intro txn st' h
    obtain ⟨st₂, h1, h2⟩ := pp_ok_shape _ p st txn st' h
    have hc := orchestrate_ok_count _ p st txn st₂ (capture_body_count gw amount?) h1
    rw [h2]
    simp only [gateway_postprocess]
    rw [hc]
  · intro txn st' h
    exact orchestrate_ok_count _ p st txn st' (refund_body_count gw amount?) h
  · intro txn st' h
    exact orchestrate_ok_count _ p st txn st' (void_body_count gw) h
  · intro txn st' h
    exact orchestrate_ok_count _ p st txn st' (confirm_body_count gw) h

/-- C9, witness: the hook counts on concrete successful process and capture
calls. -/
theorem C9_witness :
    (process_payment gw_success "tok" p_active st_auth).2.postprocess_count =
      st_auth.postprocess_count + 1 ∧
    (capture gw_success (some 5) p_active st_auth).2.postprocess_count =
      st_auth.postprocess_count + 2 := by
  constructor
  · have h := (C9_postprocess_multiplicity gw_success "tok" (some 5) p_active
      st_auth).1 tx_gw_capture st_after_process (by decide)
    have he : (process_payment gw_success "tok" p_active st_auth).2 =
        st_after_process := by decide
    rw [he]
    exact h
  · have h := (C9_postprocess_multiplicity gw_success "tok" (some 5) p_active
      st_auth).2.2.1 tx_gw_capture
      { st_after_process with
        postprocess_count := 2
        events := [Ev.activeCheck true, Ev.lockAcquire,
          Ev.gatewayCall (create_payment_information "authtok" (some 5)),
          Ev.postprocessRun, Ev.postprocessRun] } (by decide)
    have he : (capture gw_success (some 5) p_active st_auth).2 =
        { st_after_process with
          postprocess_count := 2
          events := [Ev.activeCheck true, Ev.lockAcquire,
            Ev.gatewayCall (create_payment_information "authtok" (some 5)),
            Ev.postprocessRun, Ev.postprocessRun] } := by decide
    rw [he]
    exact h

/-- C10: in every orchestrator stack the `payment_postprocess` decorator
sits inside `raise_payment_error`, so when the wrapped body commits an
unsuccessful transaction the hook `gateway_postprocess` is applied to that
transaction first — bumping the hook count and trace — and only then is
the `PaymentError` with the transaction's error message raised to the
caller; the outer `capture` wrapper adds nothing on this error path. -/
theorem C10_postprocess_before_raise :
    ∀ (body : Op) (p : Payment) (st : St) (txn : Transaction) (st₁ : St),
    p.is_active = true →
    body st.payment (after_guard p st) = (Except.ok txn, st₁) →
    txn.is_success = false →
    orchestrate body p st =
      (Except.error (txn_error_message txn), gateway_postprocess txn st₁) ∧
    payment_postprocess (orchestrate body) p st =
      (Except.error (txn_error_message txn), gateway_postprocess txn st₁) ∧
    (gateway_postprocess txn st₁).postprocess_count = st₁.postprocess_count + 1 ∧
    (gateway_postprocess txn st₁).events = st₁.events ++ [Ev.postprocessRun] := by
  intro body p st txn st₁ ha hb hs
  have ho := orchestrate_active body p st ha
  rw [hb] at ho
  have ho' : orchestrate body p st =
      (Except.error (txn_error_message txn), gateway_postprocess txn st₁) := by
    rw [ho]
    simp [hs]
  refine ⟨ho', ?_, rfl, rfl⟩
  unfold payment_postprocess
  rw [ho']

/-- C10, witness: a declined gateway refund commits an unsuccessful REFUND
row, the hook runs on it, and only then is the generic `PaymentError`
raised. -/
theorem C10_witness :
    orchestrate (refund_body gw_declined (some 3)) p_active st_cap =
      (Except.error GENERIC_TRANSACTION_ERROR,
        gateway_postprocess tx_declined_refund st_declined) ∧
    (gateway_postprocess tx_declined_refund st_declined).postprocess_count =
      st_declined.postprocess_count + 1 :=
  ⟨(C10_postprocess_before_raise (refund_body gw_declined (some 3)) p_active
      st_cap tx_declined_refund st_declined (by decide) (by decide) (by decide)).1,
   (C10_postprocess_before_raise (refund_body gw_declined (some 3)) p_active
      st_cap tx_declined_refund st_declined (by decide) (by decide)
      (by decide)).2.2.1⟩

end Saleor
